import Mathlib

/-!
Shallow embedding of the Soroban 2FA backup-recovery contract (src/lib.rs,
`TwoFactorBackupContract`), and verification of the claims C1 - C10 about it.

Modelling conventions:
* Opaque byte values (`Address`, `BytesN<32>`, `BytesN<16>`) are modelled as
  `Nat`; the contract never interprets them, only stores and returns them.
* Machine integers are modelled as `Nat` with explicit reduction modulo
  `2 ^ 32` (for `u32`) or `2 ^ 64` (for `u64`) exactly where the Rust code
  performs arithmetic that can overflow: `recovery_attempts += 1` (u32) and
  `current_time + default_timelock` (u64).  This is the wrapping semantics of
  a release-profile Rust build.
* A Rust `panic!` (including `Option::unwrap` on `None`) aborts the whole
  Soroban invocation and the host discards every storage write of that
  invocation.  Each operation is therefore a pure function returning
  `Except ContractError ...`; an `.error` result means the call failed and
  the pre-call state is kept unchanged (see `applyOp`).
* `user.require_auth()` is an external capability check that either passes or
  aborts the call before any state change; the claims concern authorized
  calls, so it is modelled as passing.
* `env.storage().instance()` is a single keyed store.  The claims are all
  per-identity, and records of distinct identities live under distinct keys
  (`DataKey::UserRecovery(user)`), so the state carries the one record slot
  of the identity under consideration together with the global configuration
  (`ADMIN`, `DFLT_LOCK`).
* `extend_ttl` is a storage-liveness hint with no effect on stored values;
  `log!` and the constructed `RecoveryEvent` are observability only and are
  never delivered anywhere in the source.  Neither affects any claim.
-/

def U32 : Nat := 2 ^ 32

def U64 : Nat := 2 ^ 64

/-- RecoveryData from src/lib.rs lines 8-16: the per-user record. -/
structure RecoveryData where
  user_address : Nat
  encrypted_backup : Nat
  recovery_nonce : Nat
  timelock_expiry : Nat
  recovery_initiated : Bool
  recovery_attempts : Nat
  max_attempts : Nat
deriving DecidableEq

/-- Failure kinds: one per `panic!` site of src/lib.rs, plus `ConfigMissing`
for the `.unwrap()` panic when `DFLT_LOCK` was never set by the
initialization entry point. -/
inductive ContractError where
  | AlreadyConfigured
  | ConfigMissing
  | AlreadyRegistered
  | NotRegistered
  | AlreadyInitiated
  | NotInitiated
  | TimelockNotExpired
  | MaxAttemptsExceeded
deriving DecidableEq

/-- Contract storage restricted to one identity: the global configuration
(`ADMIN`, `DFLT_LOCK`) and that identity's record slot. -/
structure ContractState where
  admin : Option Nat
  default_timelock : Option Nat
  record : Option RecoveryData
deriving DecidableEq

/-- Embeds `TwoFactorBackupContract::initialize` (src/lib.rs lines 43-54):
fails if `ADMIN` is already set, otherwise stores the admin address and the
default timelock period. -/
def initContract (s : ContractState) (admin default_timelock_period : Nat) :
    Except ContractError ContractState :=
  if s.admin.isSome then
    .error .AlreadyConfigured
  else
    .ok { s with admin := some admin,
                 default_timelock := some default_timelock_period }

/-- Embeds `TwoFactorBackupContract::register_backup` (src/lib.rs lines
57-93): fails if a record already exists for the user; then reads
`DFLT_LOCK` with `.unwrap()` (a panic, hence `ConfigMissing`, when the
configuration was never set); on success stores a fresh record with
`timelock_expiry = 0`, `recovery_initiated = false`, `recovery_attempts = 0`
and the supplied ciphertext, nonce and `max_attempts`. -/
def register_backup (s : ContractState)
    (user encrypted_backup recovery_nonce max_attempts : Nat) :
    Except ContractError ContractState :=
  if s.record.isSome then
    .error .AlreadyRegistered
  else
    match s.default_timelock with
    | none => .error .ConfigMissing
    | some _ =>
      .ok { s with record := some {
          user_address := user
          encrypted_backup := encrypted_backup
          recovery_nonce := recovery_nonce
          timelock_expiry := 0
          recovery_initiated := false
          recovery_attempts := 0
          max_attempts := max_attempts } }

/-- Embeds `TwoFactorBackupContract::initiate_recovery` (src/lib.rs lines
96-127): fails if no record exists, then if recovery is already initiated;
then reads `DFLT_LOCK` with `.unwrap()` and stores
`timelock_expiry = current_time + default_timelock` (u64 addition, hence the
reduction modulo `2 ^ 64`) and `recovery_initiated = true`. -/
def initiate_recovery (s : ContractState) (current_time : Nat) :
    Except ContractError ContractState :=
  match s.record with
  | none => .error .NotRegistered
  | some rd =>
    if rd.recovery_initiated then
      .error .AlreadyInitiated
    else
      match s.default_timelock with
      | none => .error .ConfigMissing
      | some default_timelock =>
        .ok { s with record := some {
            rd with
            timelock_expiry := (current_time + default_timelock) % U64
            recovery_initiated := true } }

/-- Embeds `TwoFactorBackupContract::complete_recovery` (src/lib.rs lines
130-179): fails if no record exists, if recovery is not initiated, or if
`current_time < timelock_expiry`; then performs the tentative u32 increment
`recovery_attempts += 1` (hence the reduction modulo `2 ^ 32`) and fails if
the incremented counter exceeds `max_attempts`; otherwise persists the
incremented counter with `recovery_initiated = false` and
`timelock_expiry = 0`, and returns the post-update record. -/
def complete_recovery (s : ContractState) (current_time : Nat) :
    Except ContractError (ContractState × RecoveryData) :=
  match s.record with
  | none => .error .NotRegistered
  | some rd =>
    if !rd.recovery_initiated then
      .error .NotInitiated
    else if current_time < rd.timelock_expiry then
      .error .TimelockNotExpired
    else
      let new_attempts := (rd.recovery_attempts + 1) % U32
      if new_attempts > rd.max_attempts then
        .error .MaxAttemptsExceeded
      else
        let rd2 := { rd with recovery_attempts := new_attempts
                             recovery_initiated := false
                             timelock_expiry := 0 }
        .ok ({ s with record := some rd2 }, rd2)

/-- One invocation of the contract, with its clock reading for the
time-dependent entry points. -/
inductive Op where
  | initOp (admin default_timelock_period : Nat)
  | registerOp (user encrypted_backup recovery_nonce max_attempts : Nat)
  | initiateOp (current_time : Nat)
  | completeOp (current_time : Nat)
deriving DecidableEq

/-- Soroban transaction semantics: a failed invocation (a `panic!`) discards
every storage write it attempted, so the state is unchanged; a successful
invocation commits its writes. -/
def applyOp (s : ContractState) : Op → ContractState
  | .initOp a d =>
    match initContract s a d with
    | .ok s2 => s2
    | .error _ => s
  | .registerOp u eb rn ma =>
    match register_backup s u eb rn ma with
    | .ok s2 => s2
    | .error _ => s
  | .initiateOp t =>
    match initiate_recovery s t with
    | .ok s2 => s2
    | .error _ => s
  | .completeOp t =>
    match complete_recovery s t with
    | .ok p => p.1
    | .error _ => s

/-- Runs a sequence of invocations from a starting state. -/
def runOps (s : ContractState) (ops : List Op) : ContractState :=
  ops.foldl applyOp s

/-- The stored attempt counter of a state (0 when no record exists). -/
def attemptsOf (s : ContractState) : Nat :=
  match s.record with
  | none => 0
  | some rd => rd.recovery_attempts

/-- The stored `recovery_initiated` flag of a state. -/
def initiatedOf (s : ContractState) : Bool :=
  match s.record with
  | none => false
  | some rd => rd.recovery_initiated

/-- The stored `timelock_expiry` of a state. -/
def expiryOf (s : ContractState) : Nat :=
  match s.record with
  | none => 0
  | some rd => rd.timelock_expiry

/-- The spec's lockstep invariant between the recovery flag and the stored
expiry: `recoveryInitiated == false` iff `timelockExpiry == 0`. -/
def lockstep (rd : RecoveryData) : Prop :=
  rd.recovery_initiated = false ↔ rd.timelock_expiry = 0

/-- The empty pre-deployment state: nothing configured, no record. -/
def emptyState : ContractState :=
  { admin := none, default_timelock := none, record := none }

/-- C1: with a stored record in initiated state, the timelock expired and
the incremented counter within `maxAttempts`, `complete_recovery` succeeds,
persists the record with `recovery_attempts` incremented by one,
`recovery_initiated = false` and `timelock_expiry = 0`, and returns exactly
that post-update record, whose ciphertext, nonce and `max_attempts` are the
stored pre-call values.  (`rd.max_attempts < U32` is the u32 range bound of
the `max_attempts` field.) -/
theorem complete_recovery_success_C1 (s : ContractState) (rd : RecoveryData)
    (t : Nat)
    (hrec : s.record = some rd)
    (hinit : rd.recovery_initiated = true)
    (hexp : rd.timelock_expiry ≤ t)
    (hle : rd.recovery_attempts + 1 ≤ rd.max_attempts)
    (hmax : rd.max_attempts < U32) :
    complete_recovery s t =
      .ok ({ s with record := some {
               rd with recovery_attempts := rd.recovery_attempts + 1
                       recovery_initiated := false
                       timelock_expiry := 0 } },
            { rd with recovery_attempts := rd.recovery_attempts + 1
                      recovery_initiated := false
                      timelock_expiry := 0 }) ∧
    ({ rd with recovery_attempts := rd.recovery_attempts + 1
               recovery_initiated := false
               timelock_expiry := 0 } : RecoveryData).encrypted_backup
        = rd.encrypted_backup ∧
    ({ rd with recovery_attempts := rd.recovery_attempts + 1
               recovery_initiated := false
               timelock_expiry := 0 } : RecoveryData).recovery_nonce
        = rd.recovery_nonce ∧
    ({ rd with recovery_attempts := rd.recovery_attempts + 1
               recovery_initiated := false
               timelock_expiry := 0 } : RecoveryData).max_attempts
        = rd.max_attempts := by
  have hmod : (rd.recovery_attempts + 1) % U32 = rd.recovery_attempts + 1 :=
    Nat.mod_eq_of_lt (lt_of_le_of_lt hle hmax)
  have hnotlt : ¬ t < rd.timelock_expiry := not_lt.mpr hexp
  refine ⟨?_, rfl, rfl, rfl⟩
  simp [complete_recovery, hrec, hinit, hnotlt, hmod, not_lt.mpr hle]

/-- Witness for C1 at a concrete state: one attempt already used, the limit
at 3, the timelock expired at time 100. -/
theorem complete_recovery_success_C1_witness :
    complete_recovery
      { admin := some 0, default_timelock := some 10,
        record := some
          { user_address := 7, encrypted_backup := 11, recovery_nonce := 13,
            timelock_expiry := 50, recovery_initiated := true,
            recovery_attempts := 1, max_attempts := 3 } } 100 =
      .ok ({ admin := some 0, default_timelock := some 10,
             record := some
               { user_address := 7, encrypted_backup := 11,
                 recovery_nonce := 13, timelock_expiry := 0,
                 recovery_initiated := false, recovery_attempts := 2,
                 max_attempts := 3 } },
           { user_address := 7, encrypted_backup := 11, recovery_nonce := 13,
             timelock_expiry := 0, recovery_initiated := false,
             recovery_attempts := 2, max_attempts := 3 }) :=
  (complete_recovery_success_C1
    { admin := some 0, default_timelock := some 10,
      record := some
        { user_address := 7, encrypted_backup := 11, recovery_nonce := 13,
          timelock_expiry := 50, recovery_initiated := true,
          recovery_attempts := 1, max_attempts := 3 } }
    { user_address := 7, encrypted_backup := 11, recovery_nonce := 13,
      timelock_expiry := 50, recovery_initiated := true,
      recovery_attempts := 1, max_attempts := 3 }
    100 rfl rfl (by decide) (by decide) (by decide)).1

/-- C4: with a stored record in initiated state and the current time still
before the timelock expiry, `complete_recovery` fails with
`TimelockNotExpired` and the stored record — `recovery_attempts` included —
is unchanged (the failed invocation commits no write). -/
theorem complete_recovery_timelock_C4 (s : ContractState) (rd : RecoveryData)
    (t : Nat)
    (hrec : s.record = some rd)
    (hinit : rd.recovery_initiated = true)
    (hlt : t < rd.timelock_expiry) :
    complete_recovery s t = .error .TimelockNotExpired ∧
    applyOp s (Op.completeOp t) = s := by
  have h1 : complete_recovery s t = .error .TimelockNotExpired := by
    simp [complete_recovery, hrec, hinit, hlt]
  exact ⟨h1, by simp [applyOp, h1]⟩

/-- Witness for C4 at a concrete state: the timelock expires at 50 and the
call arrives at time 49. -/
theorem complete_recovery_timelock_C4_witness :
    complete_recovery
      { admin := some 0, default_timelock := some 10,
        record := some
          { user_address := 7, encrypted_backup := 11, recovery_nonce := 13,
            timelock_expiry := 50, recovery_initiated := true,
            recovery_attempts := 1, max_attempts := 3 } } 49 =
      .error .TimelockNotExpired ∧
    applyOp
      { admin := some 0, default_timelock := some 10,
        record := some
          { user_address := 7, encrypted_backup := 11, recovery_nonce := 13,
            timelock_expiry := 50, recovery_initiated := true,
            recovery_attempts := 1, max_attempts := 3 } }
      (Op.completeOp 49) =
      { admin := some 0, default_timelock := some 10,
        record := some
          { user_address := 7, encrypted_backup := 11, recovery_nonce := 13,
            timelock_expiry := 50, recovery_initiated := true,
            recovery_attempts := 1, max_attempts := 3 } } :=
  complete_recovery_timelock_C4
    { admin := some 0, default_timelock := some 10,
      record := some
        { user_address := 7, encrypted_backup := 11, recovery_nonce := 13,
          timelock_expiry := 50, recovery_initiated := true,
          recovery_attempts := 1, max_attempts := 3 } }
    { user_address := 7, encrypted_backup := 11, recovery_nonce := 13,
      timelock_expiry := 50, recovery_initiated := true,
      recovery_attempts := 1, max_attempts := 3 }
    49 rfl rfl (by decide)

/-- C5: after a successful `register_backup`, a second `register_backup` for
the same identity with any ciphertext, nonce and limit fails with
`AlreadyRegistered`, and the stored ciphertext, nonce and `max_attempts`
remain those supplied by the first call. -/
theorem register_twice_C5 (s s1 : ContractState)
    (u eb rn ma eb2 rn2 ma2 : Nat)
    (h : register_backup s u eb rn ma = .ok s1) :
    register_backup s1 u eb2 rn2 ma2 = .error .AlreadyRegistered ∧
    ∀ rd1, s1.record = some rd1 →
      rd1.encrypted_backup = eb ∧ rd1.recovery_nonce = rn ∧
      rd1.max_attempts = ma := by
  unfold register_backup at h
  by_cases hs : s.record.isSome
  · simp [hs] at h
  · simp [hs] at h
    cases hc : s.default_timelock with
    | none => rw [hc] at h; exact absurd h (by simp)
    | some d =>
      rw [hc] at h
      simp at h
      constructor
      · simp [register_backup, ← h]
      · intro rd1 hrd1
        rw [← h] at hrd1
        simp at hrd1
        simp [← hrd1]

/-- Witness for C5: register at a concrete fresh state, then observe the
second registration fail and the first call's fields persist. -/
theorem register_twice_C5_witness :
    register_backup
      { admin := some 0, default_timelock := some 10,
        record := some
          { user_address := 7, encrypted_backup := 11, recovery_nonce := 13,
            timelock_expiry := 0, recovery_initiated := false,
            recovery_attempts := 0, max_attempts := 3 } }
      7 21 22 9 = .error .AlreadyRegistered :=
  (register_twice_C5
    { admin := some 0, default_timelock := some 10, record := none }
    { admin := some 0, default_timelock := some 10,
      record := some
        { user_address := 7, encrypted_backup := 11, recovery_nonce := 13,
          timelock_expiry := 0, recovery_initiated := false,
          recovery_attempts := 0, max_attempts := 3 } }
    7 11 13 3 21 22 9 rfl).1

/-- C6: a record registered with `max_attempts = 0`, in initiated state with
`recovery_attempts = 0` and the timelock expired, fails its very first
`complete_recovery` with `MaxAttemptsExceeded`, and that and every later
`complete_recovery` invocation (at any clock reading) leaves the stored
record unchanged — still initiated with zero attempts. -/
theorem max_attempts_zero_trap_C6 (s : ContractState) (rd : RecoveryData)
    (t : Nat)
    (hrec : s.record = some rd)
    (hmax : rd.max_attempts = 0)
    (hatt : rd.recovery_attempts = 0)
    (hinit : rd.recovery_initiated = true)
    (hexp : rd.timelock_expiry ≤ t) :
    complete_recovery s t = .error .MaxAttemptsExceeded ∧
    ∀ t2, applyOp s (Op.completeOp t2) = s := by
  have hone : (rd.recovery_attempts + 1) % U32 = 1 := by
    rw [hatt]; decide
  constructor
  · simp [complete_recovery, hrec, hinit, not_lt.mpr hexp, hone, hmax]
  · intro t2
    by_cases hlt : t2 < rd.timelock_expiry
    · simp [applyOp, complete_recovery, hrec, hinit, hlt]
    · simp [applyOp, complete_recovery, hrec, hinit, hlt, hone, hmax]

/-- Witness for C6 at a concrete state with `max_attempts = 0` and the
timelock expired at time 60. -/
theorem max_attempts_zero_trap_C6_witness :
    complete_recovery
      { admin := some 0, default_timelock := some 10,
        record := some
          { user_address := 7, encrypted_backup := 11, recovery_nonce := 13,
            timelock_expiry := 50, recovery_initiated := true,
            recovery_attempts := 0, max_attempts := 0 } } 60 =
      .error .MaxAttemptsExceeded :=
  (max_attempts_zero_trap_C6
    { admin := some 0, default_timelock := some 10,
      record := some
        { user_address := 7, encrypted_backup := 11, recovery_nonce := 13,
          timelock_expiry := 50, recovery_initiated := true,
          recovery_attempts := 0, max_attempts := 0 } }
    { user_address := 7, encrypted_backup := 11, recovery_nonce := 13,
      timelock_expiry := 50, recovery_initiated := true,
      recovery_attempts := 0, max_attempts := 0 }
    60 rfl rfl rfl rfl (by decide)).1

/-- C7: with a stored record not in initiated state and the configuration
set, `initiate_recovery` succeeds and persists
`timelock_expiry = (now + defaultTimelockPeriod) % 2 ^ 64` — the u64 sum of
the clock and the global period read at this call (the record stores no
period of its own, so the value current at initiation time, not anything
captured at registration, governs; when the sum does not wrap it is exactly
`now + defaultTimelockPeriod`) — together with `recovery_initiated = true`;
with the record already in initiated state it fails with `AlreadyInitiated`
at every clock reading, leaving the record unchanged. -/
theorem initiate_recovery_C7 (s : ContractState) (rd : RecoveryData)
    (t : Nat)
    (hrec : s.record = some rd) :
    (∀ dtl, rd.recovery_initiated = false → s.default_timelock = some dtl →
      initiate_recovery s t =
        .ok { s with record := some {
            rd with timelock_expiry := (t + dtl) % U64
                    recovery_initiated := true } } ∧
      (t + dtl < U64 → (t + dtl) % U64 = t + dtl)) ∧
    (rd.recovery_initiated = true →
      initiate_recovery s t = .error .AlreadyInitiated ∧
      applyOp s (Op.initiateOp t) = s) := by
  constructor
  · intro dtl hni hcfg
    exact ⟨by simp [initiate_recovery, hrec, hni, hcfg], Nat.mod_eq_of_lt⟩
  · intro hini
    have h1 : initiate_recovery s t = .error .AlreadyInitiated := by
      simp [initiate_recovery, hrec, hini]
    exact ⟨h1, by simp [applyOp, h1]⟩

/-- Witness for C7: a concrete idle record, configured period 10, clock 42:
initiation stores expiry 52 and sets the flag. -/
theorem initiate_recovery_C7_witness :
    initiate_recovery
      { admin := some 0, default_timelock := some 10,
        record := some
          { user_address := 7, encrypted_backup := 11, recovery_nonce := 13,
            timelock_expiry := 0, recovery_initiated := false,
            recovery_attempts := 1, max_attempts := 3 } } 42 =
      .ok { admin := some 0, default_timelock := some 10,
            record := some {
              ({ user_address := 7, encrypted_backup := 11,
                 recovery_nonce := 13, timelock_expiry := 0,
                 recovery_initiated := false, recovery_attempts := 1,
                 max_attempts := 3 } : RecoveryData) with
              timelock_expiry := (42 + 10) % U64
              recovery_initiated := true } } :=
  ((initiate_recovery_C7
    { admin := some 0, default_timelock := some 10,
      record := some
        { user_address := 7, encrypted_backup := 11, recovery_nonce := 13,
          timelock_expiry := 0, recovery_initiated := false,
          recovery_attempts := 1, max_attempts := 3 } }
    { user_address := 7, encrypted_backup := 11, recovery_nonce := 13,
      timelock_expiry := 0, recovery_initiated := false,
      recovery_attempts := 1, max_attempts := 3 }
    42 rfl).1 10 rfl rfl).1

/-- C10: `initiate_recovery` computes the stored expiry by the unchecked
u64 addition `now + defaultTimelockPeriod`; whenever the mathematical sum
reaches `2 ^ 64` the persisted `timelock_expiry` is the wrapped value
`now + dtl - 2 ^ 64`, which differs from the mathematical sum and is
strictly below the current clock, so the freshly initiated timelock is
already expired at the very moment it is created. -/
theorem initiate_overflow_C10 (s : ContractState) (rd : RecoveryData)
    (dtl t : Nat)
    (hrec : s.record = some rd)
    (hni : rd.recovery_initiated = false)
    (hcfg : s.default_timelock = some dtl)
    (hd : dtl < U64)
    (ht : t < U64)
    (hov : U64 ≤ t + dtl) :
    initiate_recovery s t =
      .ok { s with record := some {
          rd with timelock_expiry := t + dtl - U64
                  recovery_initiated := true } } ∧
    t + dtl - U64 ≠ t + dtl ∧
    t + dtl - U64 < t := by
  have hU : 0 < U64 := by decide
  have hmod : (t + dtl) % U64 = t + dtl - U64 := by
    simp only [U64] at hd ht hov ⊢
    omega
  refine ⟨?_, by omega, by omega⟩
  simp [initiate_recovery, hrec, hni, hcfg, hmod]

/-- Witness for C10: clock at `2 ^ 64 - 1` and configured period 2 store
expiry 1, which is below the clock — the timelock is born expired. -/
theorem initiate_overflow_C10_witness :
    initiate_recovery
      { admin := some 0, default_timelock := some 2,
        record := some
          { user_address := 7, encrypted_backup := 11, recovery_nonce := 13,
            timelock_expiry := 0, recovery_initiated := false,
            recovery_attempts := 0, max_attempts := 3 } } (U64 - 1) =
      .ok { admin := some 0, default_timelock := some 2,
            record := some {
              ({ user_address := 7, encrypted_backup := 11,
                 recovery_nonce := 13, timelock_expiry := 0,
                 recovery_initiated := false, recovery_attempts := 0,
                 max_attempts := 3 } : RecoveryData) with
              timelock_expiry := (U64 - 1) + 2 - U64
              recovery_initiated := true } } ∧
    (U64 - 1) + 2 - U64 < U64 - 1 :=
  ((initiate_overflow_C10
    { admin := some 0, default_timelock := some 2,
      record := some
        { user_address := 7, encrypted_backup := 11, recovery_nonce := 13,
          timelock_expiry := 0, recovery_initiated := false,
          recovery_attempts := 0, max_attempts := 3 } }
    { user_address := 7, encrypted_backup := 11, recovery_nonce := 13,
      timelock_expiry := 0, recovery_initiated := false,
      recovery_attempts := 0, max_attempts := 3 }
    2 (U64 - 1) rfl rfl rfl (by decide) (by decide) (by decide)).imp_right
      And.right)

/-- Trace refuting C3: configure with `default_timelock_period = 0`,
register, then initiate at clock 0. -/
def lockstepCexTrace : List Op :=
  [Op.initOp 0 0, Op.registerOp 7 11 13 3, Op.initiateOp 0]

/-- C3 counterexample: after the successful `initiate_recovery` of
`lockstepCexTrace` (period 0, clock 0) the persisted record has
`recovery_initiated = true` together with `timelock_expiry = 0`, violating
the claimed lockstep invariant `recoveryInitiated == false` iff
`timelockExpiry == 0` — the stored expiry `now + period` can itself be 0. -/
theorem lockstep_C3_cex :
    (initiate_recovery
      (runOps emptyState [Op.initOp 0 0, Op.registerOp 7 11 13 3]) 0).isOk
        = true ∧
    initiatedOf (runOps emptyState lockstepCexTrace) = true ∧
    expiryOf (runOps emptyState lockstepCexTrace) = 0 ∧
    (runOps emptyState lockstepCexTrace).record.isSome = true := by
  refine ⟨?_, ?_, ?_, ?_⟩ <;> rfl

/-- C3 amended: the lockstep invariant
`recoveryInitiated == false ⟺ timelockExpiry == 0` holds for the record
persisted by every successful `register_backup` and `complete_recovery`;
for a successful `initiate_recovery` it holds exactly when the stored u64
sum `(now + defaultTimelockPeriod) % 2 ^ 64` is nonzero — when that sum is
zero (period 0 at clock 0, or a wrap landing exactly on 0) the persisted
record has `recovery_initiated = true` and `timelock_expiry = 0`. -/
theorem lockstep_invariant_C3_amended (s : ContractState) (t : Nat) :
    (∀ u eb rn ma s2 rd2, register_backup s u eb rn ma = .ok s2 →
      s2.record = some rd2 → lockstep rd2) ∧
    (∀ s2 r2 rd2, complete_recovery s t = .ok (s2, r2) →
      s2.record = some rd2 → lockstep rd2) ∧
    (∀ s2 rd2, initiate_recovery s t = .ok s2 → s2.record = some rd2 →
      (lockstep rd2 ↔ rd2.timelock_expiry ≠ 0)) := by
  refine ⟨?_, ?_, ?_⟩
  · intro u eb rn ma s2 rd2 h h2
    unfold register_backup at h
    by_cases hs : s.record.isSome
    · simp [hs] at h
    · simp [hs] at h
      cases hc : s.default_timelock with
      | none => rw [hc] at h; exact absurd h (by simp)
      | some d =>
        rw [hc] at h
        simp at h
        rw [← h] at h2
        simp at h2
        simp [lockstep, ← h2]
  · intro s2 r2 rd2 h h2
    unfold complete_recovery at h
    cases hr : s.record with
    | none => rw [hr] at h; exact absurd h (by simp)
    | some rd =>
      rw [hr] at h
      by_cases hi : rd.recovery_initiated
      · simp only [hi] at h
        by_cases hlt : t < rd.timelock_expiry
        · simp [hlt] at h
        · simp only [hlt] at h
          by_cases hm : (rd.recovery_attempts + 1) % U32 > rd.max_attempts
          · simp [hm] at h
          · simp [hm] at h
            rw [← h.1] at h2
            simp at h2
            simp [lockstep, ← h2]
      · simp [hi] at h
  · intro s2 rd2 h h2
    unfold initiate_recovery at h
    cases hr : s.record with
    | none => rw [hr] at h; exact absurd h (by simp)
    | some rd =>
      rw [hr] at h
      by_cases hi : rd.recovery_initiated
      · simp [hi] at h
      · simp only [hi, if_false, Bool.false_eq_true] at h
        cases hc : s.default_timelock with
        | none => rw [hc] at h; exact absurd h (by simp)
        | some d =>
          rw [hc] at h
          simp at h
          rw [← h] at h2
          simp at h2
          simp [lockstep, ← h2]

/-- Witness for the amended C3: the record persisted by a concrete
successful registration satisfies the lockstep invariant. -/
theorem lockstep_invariant_C3_amended_witness :
    lockstep
      { user_address := 7, encrypted_backup := 11, recovery_nonce := 13,
        timelock_expiry := 0, recovery_initiated := false,
        recovery_attempts := 0, max_attempts := 3 } :=
  (lockstep_invariant_C3_amended
      { admin := some 0, default_timelock := some 10, record := none }
      0).1
    7 11 13 3
    { admin := some 0, default_timelock := some 10,
      record := some
        { user_address := 7, encrypted_backup := 11, recovery_nonce := 13,
          timelock_expiry := 0, recovery_initiated := false,
          recovery_attempts := 0, max_attempts := 3 } }
    { user_address := 7, encrypted_backup := 11, recovery_nonce := 13,
      timelock_expiry := 0, recovery_initiated := false,
      recovery_attempts := 0, max_attempts := 3 }
    rfl rfl

/-- C8 counterexample: with the global configuration never set,
`register_backup` fails (the `.unwrap()` of the missing `DFLT_LOCK` value
panics), while the same call on a configured state succeeds — so the
configuration read is observable and register's success does depend on
whether the contract was initialized, contrary to the claim. -/
theorem register_config_C8_cex :
    (register_backup emptyState 7 11 13 3).isOk = false ∧
    register_backup emptyState 7 11 13 3 = .error .ConfigMissing ∧
    (register_backup
      { admin := some 0, default_timelock := some 10, record := none }
      7 11 13 3).isOk = true := by
  refine ⟨?_, ?_, ?_⟩ <;> rfl

/-- C8 amended: provided the global configuration has been set, the read of
`defaultTimelockPeriod` in `register_backup` has no observable effect: for
every record slot and arguments, two states with the configuration set to
arbitrary different values (and arbitrary admin entries) give the same
success or failure, the same error kind on failure, and the same stored
record on success.  Only when the configuration is absent does the read
matter, making the call fail where an implementation omitting the read
would succeed. -/
theorem register_config_C8_amended (ad1 ad2 : Option Nat) (d1 d2 : Nat)
    (rec : Option RecoveryData) (u eb rn ma : Nat) :
    ((register_backup
        { admin := ad1, default_timelock := some d1, record := rec }
        u eb rn ma).isOk =
      (register_backup
        { admin := ad2, default_timelock := some d2, record := rec }
        u eb rn ma).isOk) ∧
    (∀ e1 e2,
      register_backup
        { admin := ad1, default_timelock := some d1, record := rec }
        u eb rn ma = .error e1 →
      register_backup
        { admin := ad2, default_timelock := some d2, record := rec }
        u eb rn ma = .error e2 → e1 = e2) ∧
    (∀ t1 t2,
      register_backup
        { admin := ad1, default_timelock := some d1, record := rec }
        u eb rn ma = .ok t1 →
      register_backup
        { admin := ad2, default_timelock := some d2, record := rec }
        u eb rn ma = .ok t2 → t1.record = t2.record) := by
  cases rec with
  | none =>
    refine ⟨by simp [register_backup, Except.isOk, Except.toBool], ?_, ?_⟩
    · intro e1 e2 h1 h2
      simp [register_backup] at h1
    · intro t1 t2 h1 h2
      simp [register_backup] at h1 h2
      rw [← h1, ← h2]
  | some rd =>
    refine ⟨by simp [register_backup, Except.isOk, Except.toBool], ?_, ?_⟩
    · intro e1 e2 h1 h2
      simp [register_backup] at h1 h2
      rw [← h1, ← h2]
    · intro t1 t2 h1 h2
      simp [register_backup] at h1

/-- Witness for the amended C8 at concrete inputs: configured periods 3 and
999 give the same registration outcome. -/
theorem register_config_C8_amended_witness :
    (register_backup
      { admin := some 0, default_timelock := some 3, record := none }
      7 11 13 5).isOk =
    (register_backup
      { admin := some 4, default_timelock := some 999, record := none }
      7 11 13 5).isOk :=
  (register_config_C8_amended (some 0) (some 4) 3 999 none 7 11 13 5).1

/-- Record refuting C2: at the attempt ceiling `2 ^ 32 - 1` with the counter
already there, in initiated state with the timelock expired. -/
def atWrapRecord : RecoveryData :=
  { user_address := 7, encrypted_backup := 11, recovery_nonce := 13,
    timelock_expiry := 0, recovery_initiated := true,
    recovery_attempts := U32 - 1, max_attempts := U32 - 1 }

/-- State holding `atWrapRecord`. -/
def atWrapState : ContractState :=
  { admin := some 0, default_timelock := some 0, record := some atWrapRecord }

/-- C2 counterexample: `atWrapRecord` satisfies every hypothesis of the
claim — initiated, timelock expired at clock 0, and mathematically
`recoveryAttempts + 1 > maxAttempts` — yet `complete_recovery` does not
fail: the u32 increment `recovery_attempts += 1` wraps `2 ^ 32 - 1` to 0,
the ceiling comparison passes, and the call succeeds, persisting
`recovery_attempts = 0` and `recovery_initiated = false`.  The claimed
forever-failing trap state has an exit. -/
theorem complete_recovery_C2_cex :
    atWrapRecord.recovery_initiated = true ∧
    atWrapRecord.timelock_expiry ≤ 0 ∧
    atWrapRecord.max_attempts < atWrapRecord.recovery_attempts + 1 ∧
    (complete_recovery atWrapState 0).isOk = true ∧
    attemptsOf (applyOp atWrapState (Op.completeOp 0)) = 0 ∧
    initiatedOf (applyOp atWrapState (Op.completeOp 0)) = false := by
  refine ⟨rfl, by decide, by decide, ?_, ?_, ?_⟩ <;> rfl

/-- C2 amended: with a stored record in initiated state, the timelock
expired and `recoveryAttempts + 1 > maxAttempts` where the increment does
not wrap (`recoveryAttempts + 1 < 2 ^ 32`, automatic whenever
`recoveryAttempts` is below the u32 maximum), `complete_recovery` fails
with `MaxAttemptsExceeded`, the failed invocation persists nothing — the
stored record keeps `recoveryInitiated = true` and its old counter and
expiry — and every subsequent `complete_recovery` at any clock reading
from `now` on fails the same way. -/
theorem complete_recovery_max_C2_amended (s : ContractState)
    (rd : RecoveryData) (t : Nat)
    (hrec : s.record = some rd)
    (hinit : rd.recovery_initiated = true)
    (hexp : rd.timelock_expiry ≤ t)
    (hgt : rd.max_attempts < rd.recovery_attempts + 1)
    (hrange : rd.recovery_attempts + 1 < U32) :
    complete_recovery s t = .error .MaxAttemptsExceeded ∧
    applyOp s (Op.completeOp t) = s ∧
    ∀ t2, t ≤ t2 →
      complete_recovery s t2 = .error .MaxAttemptsExceeded ∧
      applyOp s (Op.completeOp t2) = s := by
  have hmod : (rd.recovery_attempts + 1) % U32 = rd.recovery_attempts + 1 :=
    Nat.mod_eq_of_lt hrange
  have hfail : ∀ t2, rd.timelock_expiry ≤ t2 →
      complete_recovery s t2 = .error .MaxAttemptsExceeded := by
    intro t2 h2
    simp [complete_recovery, hrec, hinit, not_lt.mpr h2, hmod, hgt]
  have h1 := hfail t hexp
  refine ⟨h1, by simp [applyOp, h1], ?_⟩
  intro t2 ht2
  have h2 := hfail t2 (le_trans hexp ht2)
  exact ⟨h2, by simp [applyOp, h2]⟩

/-- Witness for the amended C2: counter 1 at ceiling 1, timelock expired at
time 60 — completion fails with `MaxAttemptsExceeded`. -/
theorem complete_recovery_max_C2_amended_witness :
    complete_recovery
      { admin := some 0, default_timelock := some 10,
        record := some
          { user_address := 7, encrypted_backup := 11, recovery_nonce := 13,
            timelock_expiry := 50, recovery_initiated := true,
            recovery_attempts := 1, max_attempts := 1 } } 60 =
      .error .MaxAttemptsExceeded :=
  (complete_recovery_max_C2_amended
    { admin := some 0, default_timelock := some 10,
      record := some
        { user_address := 7, encrypted_backup := 11, recovery_nonce := 13,
          timelock_expiry := 50, recovery_initiated := true,
          recovery_attempts := 1, max_attempts := 1 } }
    { user_address := 7, encrypted_backup := 11, recovery_nonce := 13,
      timelock_expiry := 50, recovery_initiated := true,
      recovery_attempts := 1, max_attempts := 1 }
    60 rfl rfl (by decide) (by decide) (by decide)).1

/-- Idle state used to refute C9: registered with the maximal u32 attempt
ceiling `2 ^ 32 - 1`, period configured to 0, counter at `a`. -/
def idleAt (a : Nat) : ContractState :=
  { admin := some 0, default_timelock := some 0,
    record := some
      { user_address := 7, encrypted_backup := 11, recovery_nonce := 13,
        timelock_expiry := 0, recovery_initiated := false,
        recovery_attempts := a, max_attempts := U32 - 1 } }

/-- The same state after `initiate_recovery` at clock 0 (period 0, so the
stored expiry is 0 and the timelock is already expired). -/
def pendAt (a : Nat) : ContractState :=
  { admin := some 0, default_timelock := some 0,
    record := some
      { user_address := 7, encrypted_backup := 11, recovery_nonce := 13,
        timelock_expiry := 0, recovery_initiated := true,
        recovery_attempts := a, max_attempts := U32 - 1 } }

/-- Initiating from `idleAt a` at clock 0 yields `pendAt a`. -/
theorem applyOp_initiateOp_idleAt (a : Nat) :
    applyOp (idleAt a) (Op.initiateOp 0) = pendAt a := rfl

/-- Completing from `pendAt a` at clock 0 always succeeds when the ceiling
is the u32 maximum, wrapping the counter to `(a + 1) % 2 ^ 32`. -/
theorem applyOp_completeOp_pendAt (a : Nat) :
    applyOp (pendAt a) (Op.completeOp 0) = idleAt ((a + 1) % U32) := by
  have hlt : (a + 1) % U32 < U32 := Nat.mod_lt _ (by decide)
  have hng : ¬ ((a + 1) % U32 > U32 - 1) := by omega
  simp [applyOp, complete_recovery, pendAt, idleAt, hng]

/-- One initiate-complete round trip from an idle state at clock 0. -/
theorem runOps_cycle (a : Nat) :
    runOps (idleAt a) [Op.initiateOp 0, Op.completeOp 0] =
      idleAt ((a + 1) % U32) := by
  show applyOp (applyOp (idleAt a) (Op.initiateOp 0)) (Op.completeOp 0) = _
  rw [applyOp_initiateOp_idleAt, applyOp_completeOp_pendAt]

/-- `n` initiate-complete round trips, all at clock 0. -/
def cycleOps : Nat → List Op
  | 0 => []
  | n + 1 => cycleOps n ++ [Op.initiateOp 0, Op.completeOp 0]

/-- Running a concatenation runs the two halves in order. -/
theorem runOps_append (s : ContractState) (l1 l2 : List Op) :
    runOps s (l1 ++ l2) = runOps (runOps s l1) l2 := by
  simp [runOps, List.foldl_append]

/-- After `n` round trips the stored counter is `n % 2 ^ 32`: each
successful completion bumps the u32 counter, which wraps past the u32
maximum. -/
theorem runOps_cycleOps (n : Nat) :
    runOps (idleAt 0) (cycleOps n) = idleAt (n % U32) := by
  induction n with
  | zero => simp [cycleOps, runOps]
  | succ n ih =>
    rw [cycleOps, runOps_append, ih, runOps_cycle]
    have h1 : (1 : Nat) % U32 = 1 := Nat.mod_eq_of_lt (by decide)
    conv_rhs => rw [Nat.add_mod, h1]

/-- Configure and register with ceiling `2 ^ 32 - 1`. -/
def regOps : List Op := [Op.initOp 0 0, Op.registerOp 7 11 13 (U32 - 1)]

/-- The registration prefix reaches `idleAt 0`. -/
theorem runOps_regOps : runOps emptyState regOps = idleAt 0 := rfl

/-- Operation sequence refuting C9: configure, register with the maximal
ceiling, run `2 ^ 32 - 1` successful recovery round trips, then initiate
once more. -/
def monotoneCexOps : List Op :=
  (regOps ++ cycleOps (U32 - 1)) ++ [Op.initiateOp 0]

/-- C9 counterexample: along the concrete operation sequence
`monotoneCexOps` from the empty state, the stored counter reaches
`2 ^ 32 - 1`; the next `complete_recovery` (clock 0, timelock expired,
ceiling `2 ^ 32 - 1`) succeeds and wraps the u32 counter to 0 — the stored
`recoveryAttempts` strictly decreases, so it is not monotonically
non-decreasing over all operation sequences. -/
theorem attempts_monotone_C9_cex :
    ¬ attemptsOf (runOps emptyState monotoneCexOps) ≤
        attemptsOf (runOps emptyState
          (monotoneCexOps ++ [Op.completeOp 0])) := by
  have h1 : runOps emptyState monotoneCexOps = pendAt (U32 - 1) := by
    unfold monotoneCexOps
    rw [runOps_append, runOps_append, runOps_regOps, runOps_cycleOps]
    have hm : (U32 - 1) % U32 = U32 - 1 := Nat.mod_eq_of_lt (by decide)
    rw [hm]
    exact applyOp_initiateOp_idleAt _
  have h2 : runOps emptyState (monotoneCexOps ++ [Op.completeOp 0]) =
      idleAt ((U32 - 1 + 1) % U32) := by
    rw [runOps_append, h1]
    show applyOp (pendAt (U32 - 1)) (Op.completeOp 0) =
      idleAt ((U32 - 1 + 1) % U32)
    exact applyOp_completeOp_pendAt _
  have h3 : (U32 - 1 + 1) % U32 = 0 := by decide
  rw [h1, h2, h3]
  show ¬ U32 - 1 ≤ 0
  decide

/-- C9 amended: as long as the stored counter is below the u32 maximum
`2 ^ 32 - 1` (in particular whenever `maxAttempts < 2 ^ 32 - 1`, since the
stored counter never exceeds the ceiling), every operation leaves the
stored `recoveryAttempts` non-decreasing, and it changes only when that
operation is a `complete_recovery` that succeeds; at the u32 maximum a
successful completion wraps the counter back to 0 (see the counterexample).
-/
theorem attempts_monotone_C9_amended (s : ContractState) (op : Op)
    (h : attemptsOf s < U32 - 1) :
    attemptsOf s ≤ attemptsOf (applyOp s op) ∧
    (attemptsOf (applyOp s op) ≠ attemptsOf s →
      ∃ t, op = Op.completeOp t ∧ (complete_recovery s t).isOk = true) := by
  cases op with
  | initOp a d =>
    have hr : (applyOp s (Op.initOp a d)).record = s.record := by
      unfold applyOp initContract
      by_cases hs : s.admin.isSome <;> simp [hs]
    have he : attemptsOf (applyOp s (Op.initOp a d)) = attemptsOf s := by
      unfold attemptsOf
      rw [hr]
    exact ⟨le_of_eq he.symm, fun hne => (hne he).elim⟩
  | registerOp u eb rn ma =>
    have he : attemptsOf (applyOp s (Op.registerOp u eb rn ma)) =
        attemptsOf s := by
      by_cases hs : s.record.isSome
      · simp [applyOp, register_backup, hs]
      · have hn : s.record = none := Option.not_isSome_iff_eq_none.mp hs
        cases hc : s.default_timelock with
        | none => simp [applyOp, register_backup, hs, hc]
        | some d => simp [applyOp, register_backup, hs, hc, attemptsOf, hn]
    exact ⟨le_of_eq he.symm, fun hne => (hne he).elim⟩
  | initiateOp t =>
    have he : attemptsOf (applyOp s (Op.initiateOp t)) = attemptsOf s := by
      cases hr : s.record with
      | none => simp [applyOp, initiate_recovery, hr]
      | some rd =>
        by_cases hi : rd.recovery_initiated
        · simp [applyOp, initiate_recovery, hr, hi]
        · cases hc : s.default_timelock with
          | none => simp [applyOp, initiate_recovery, hr, hi, hc]
          | some d =>
            simp [applyOp, initiate_recovery, hr, hi, hc, attemptsOf]
    exact ⟨le_of_eq he.symm, fun hne => (hne he).elim⟩
  | completeOp t =>
    have unchanged : ∀ e, complete_recovery s t = .error e →
        attemptsOf s ≤ attemptsOf (applyOp s (Op.completeOp t)) ∧
        (attemptsOf (applyOp s (Op.completeOp t)) ≠ attemptsOf s →
          ∃ t2, Op.completeOp t = Op.completeOp t2 ∧
            (complete_recovery s t2).isOk = true) := by
      intro e he
      have happ : applyOp s (Op.completeOp t) = s := by simp [applyOp, he]
      rw [happ]
      exact ⟨le_refl _, fun hne => (hne rfl).elim⟩
    cases hr : s.record with
    | none =>
      exact unchanged .NotRegistered (by simp [complete_recovery, hr])
    | some rd =>
      by_cases hi : rd.recovery_initiated
      · by_cases hlt : t < rd.timelock_expiry
        · exact unchanged .TimelockNotExpired
            (by simp [complete_recovery, hr, hi, hlt])
        · by_cases hm : (rd.recovery_attempts + 1) % U32 > rd.max_attempts
          · exact unchanged .MaxAttemptsExceeded
              (by simp [complete_recovery, hr, hi, hlt, hm])
          · have hok : complete_recovery s t =
                .ok ({ s with record := some {
                         rd with
                         recovery_attempts := (rd.recovery_attempts + 1) % U32
                         recovery_initiated := false
                         timelock_expiry := 0 } },
                     { rd with
                       recovery_attempts := (rd.recovery_attempts + 1) % U32
                       recovery_initiated := false
                       timelock_expiry := 0 }) := by
              simp [complete_recovery, hr, hi, hlt, hm]
            have ha : attemptsOf s = rd.recovery_attempts := by
              simp [attemptsOf, hr]
            have hmod : (rd.recovery_attempts + 1) % U32 =
                rd.recovery_attempts + 1 := by
              rw [ha] at h
              exact Nat.mod_eq_of_lt (by omega)
            have happ : attemptsOf (applyOp s (Op.completeOp t)) =
                rd.recovery_attempts + 1 := by
              simp [applyOp, hok, attemptsOf, hmod]
            constructor
            · rw [happ, ha]; omega
            · intro hne
              exact ⟨t, rfl, by simp [hok, Except.isOk, Except.toBool]⟩
      · exact unchanged .NotInitiated (by simp [complete_recovery, hr, hi])

/-- Witness for the amended C9: from a concrete idle state with counter 0 a
`complete_recovery` invocation (which fails with `NotInitiated` and commits
nothing) leaves the counter non-decreasing. -/
theorem attempts_monotone_C9_amended_witness :
    attemptsOf (idleAt 0) ≤
      attemptsOf (applyOp (idleAt 0) (Op.completeOp 0)) :=
  (attempts_monotone_C9_amended (idleAt 0) (Op.completeOp 0) (by decide)).1
